import Mathlib

/-!
Verification of the search core of the nucleo-icons-cli repository
(`src/db/index.ts`): query parsing, relevance scoring, SQL-level candidate
filtering, ranked search and name clustering.

JavaScript strings are modelled as `List Char` (`Str`); JavaScript's
`toLowerCase`, `includes`, `startsWith`, `split(/\s+/)` and the SQLite
`LIKE '%pat%'` operator (ASCII case-insensitive) are given explicit
executable models below.  The catalog store is modelled as a list of joined
rows (`Icon`), and the SQL `WHERE`/`LIMIT` pipeline of `searchIcons` as
`filter`/`take` over that list.  `Array.prototype.sort` (stable, comparator
`b.relevance - a.relevance` then `a.name.localeCompare(b.name)`) is modelled
by `List.insertionSort` (stable) over the corresponding relation, with
`localeCompare` taken as code-point comparison.
-/

namespace NucleoCli

/-- A JavaScript string, modelled as its list of characters. -/
abbrev Str := List Char

/-- JS `s.toLowerCase()` (ASCII case mapping). -/
def jsToLower (s : Str) : Str := s.map Char.toLower

/-- JS `s.includes(pat)`: `pat` occurs as a contiguous substring of `s`. -/
def strContains (s pat : Str) : Bool := s.tails.any (fun t => pat.isPrefixOf t)

/-- JS `s.startsWith(pre)`. -/
def strStartsWith (s pre : Str) : Bool := pre.isPrefixOf s

/-- Splits at every whitespace character, keeping (possibly empty) chunks:
composed with a nonempty filter this models JS `query.split(/\s+/)` followed
by `.filter(t => t.length > 0)` in `parseQuery`. -/
def splitWsAux : Str → Str → List Str
  | [], acc => [acc.reverse]
  | c :: cs, acc =>
    if c.isWhitespace then acc.reverse :: splitWsAux cs []
    else splitWsAux cs (c :: acc)

def splitWs (s : Str) : List Str := splitWsAux s []

/-- `query.toLowerCase().split(/\s+/).filter(t => t.length > 0)`. -/
def tokenizeQuery (q : Str) : List Str :=
  (splitWs (jsToLower q)).filter (fun t => decide (0 < t.length))

/-- The classification loop of `parseQuery`: a token starting with `-` and
longer than one character goes to the negative list with the prefix
stripped; every other token goes to the positive list. -/
def splitTerms : List Str → List Str × List Str
  | [] => ([], [])
  | t :: ts =>
    let r := splitTerms ts
    if strStartsWith t ['-'] && decide (1 < t.length) then (r.1, t.drop 1 :: r.2)
    else (t :: r.1, r.2)

/-- `private parseQuery(query)`: positive (inclusion) and negative
(exclusion) terms. -/
def parseQuery (q : Str) : List Str × List Str := splitTerms (tokenizeQuery q)

/-- One joined row of
`SELECT i.*, s.title as set_title, g.title as group_title FROM icons i
LEFT JOIN sets s ... LEFT JOIN groups g ...`.  The nullable columns are
`Option`; `group_id` is the joined `s.group_id` (consulted by the SQL
`groupId` filter). -/
structure Icon where
  id : Nat
  name : Str
  tags : Option Str
  nucleo_tags : Option Str
  set_id : Nat
  favourite : Bool
  width : Nat
  height : Nat
  set_title : Option Str
  group_title : Option Str
  group_id : Option Nat
deriving DecidableEq

/-- The single-term branch of `calculateRelevance`: the `if`/`else if`
cascade assigning `termScore` for one positive term. -/
def termScore (icon : Icon) (term : Str) : Nat :=
  let name := jsToLower icon.name
  let tags := jsToLower (icon.tags.getD [])
  let nucleoTags := jsToLower (icon.nucleo_tags.getD [])
  let setTitle := jsToLower (icon.set_title.getD [])
  let groupTitle := jsToLower (icon.group_title.getD [])
  if name = term then 100
  else if strStartsWith name (term ++ ['-']) || strStartsWith name term then 50
  else if strContains name term then 30
  else if strContains tags term || strContains nucleoTags term then 10
  else if strContains setTitle term || strContains groupTitle term then 5
  else 0

/-- The loop body of `calculateRelevance`: accumulates `(score, matchCount)`. -/
def relStep (icon : Icon) (p : Nat × Nat) (t : Str) : Nat × Nat :=
  let s := termScore icon t
  if 0 < s then (p.1 + s, p.2 + 1) else p

/-- `private calculateRelevance(icon, positiveTerms)`. -/
def calculateRelevance (icon : Icon) (positiveTerms : List Str) : Nat :=
  let acc := positiveTerms.foldl (relStep icon) (0, 0)
  if 1 < positiveTerms.length ∧ 0 < acc.2 then acc.1 * acc.2 else acc.1

/-- SQLite `field LIKE '%pat%'` (ASCII case-insensitive); a `NULL` field
never matches. -/
def sqlLike (field : Option Str) (pat : Str) : Bool :=
  match field with
  | none => false
  | some s => strContains (jsToLower s) (jsToLower pat)

/-- One positive-term clause
`(i.name LIKE ? OR i.tags LIKE ? OR i.nucleo_tags LIKE ? OR s.title LIKE ?
OR g.title LIKE ?)`. -/
def posTermClause (i : Icon) (t : Str) : Bool :=
  sqlLike (some i.name) t || sqlLike i.tags t || sqlLike i.nucleo_tags t ||
  sqlLike i.set_title t || sqlLike i.group_title t

/-- One negative-term clause
`(i.name NOT LIKE ? AND (i.tags IS NULL OR i.tags NOT LIKE ?) AND ...)`. -/
def negTermClause (i : Icon) (t : Str) : Bool :=
  !(sqlLike (some i.name) t) && !(sqlLike i.tags t) &&
  !(sqlLike i.nucleo_tags t) && !(sqlLike i.set_title t) &&
  !(sqlLike i.group_title t)

/-- `if (set) sql += ' AND s.title LIKE ?'`: a falsy (absent or empty)
set-name filter is skipped. -/
def setClause (set? : Option Str) (i : Icon) : Bool :=
  match set? with
  | none => true
  | some s => if s.isEmpty then true else sqlLike i.set_title s

/-- `if (groupId) sql += ' AND s.group_id = ?'`: a falsy (absent or zero)
group id filter is skipped. -/
def groupIdClause (g? : Option Nat) (i : Icon) : Bool :=
  match g? with
  | none => true
  | some g => if g = 0 then true else i.group_id == some g

/-- `if (setId) sql += ' AND i.set_id = ?'`: a falsy (absent or zero)
set id filter is skipped. -/
def setIdClause (s? : Option Nat) (i : Icon) : Bool :=
  match s? with
  | none => true
  | some sid => if sid = 0 then true else i.set_id == sid

/-- The assembled `WHERE` predicate of `searchIcons`: positive terms joined
by `OR` (or no inclusion constraint when there are none), each negative
term excluded, then the structural filters. -/
def rowFilter (pos neg : List Str) (set? : Option Str) (g? s? : Option Nat)
    (i : Icon) : Bool :=
  (pos.isEmpty || pos.any (posTermClause i)) &&
  neg.all (negTermClause i) &&
  setClause set? i && groupIdClause g? i && setIdClause s? i

/-- The store query: `WHERE` filtering in store order followed by
`LIMIT cap`. -/
def fetchRows (store : List Icon) (pos neg : List Str) (set? : Option Str)
    (g? s? : Option Nat) (cap : Nat) : List Icon :=
  (store.filter (rowFilter pos neg set? g? s?)).take cap

/-- The `options` object of `searchIcons`/`searchIconsClustered`. -/
structure SearchOptions where
  set : Option Str
  groupId : Option Nat
  setId : Option Nat
  limit : Option Nat
deriving DecidableEq

/-- All options absent. -/
def noOpts : SearchOptions :=
  { set := none, groupId := none, setId := none, limit := none }

/-- A fetched row together with its computed relevance
(TS `IconWithRelevance extends Icon`). -/
structure IconWithRelevance extends Icon where
  relevance : Nat
deriving DecidableEq

/-- Code-point string comparison: the model of
`a.name.localeCompare(b.name) <= 0`. -/
def strLE : Str → Str → Bool
  | [], _ => true
  | _ :: _, [] => false
  | a :: as, b :: bs =>
    if a.toNat < b.toNat then true
    else if b.toNat < a.toNat then false
    else strLE as bs

/-- The ordering given by the sort comparator: strictly higher relevance
first, ties by ascending name. -/
def rankLE (ra rb : Nat) (na nb : Str) : Prop :=
  rb < ra ∨ (ra = rb ∧ strLE na nb = true)

instance rankLEDec (ra rb : Nat) (na nb : Str) : Decidable (rankLE ra rb na nb) :=
  inferInstanceAs (Decidable (rb < ra ∨ (ra = rb ∧ strLE na nb = true)))

/-- Comparator of the sort in `searchIcons`. -/
abbrev iconLE (a b : IconWithRelevance) : Prop :=
  rankLE a.relevance b.relevance a.name b.name

/-- `searchIcons(query, options)` over a store modelled as a row list:
parse, fetch `limit * 20` filtered rows, score, stable-sort by relevance
then name, truncate to `limit` (destructuring default `limit = 50` applies
only when the option is absent). -/
def searchIcons (store : List Icon) (query : Str) (opts : SearchOptions) :
    List IconWithRelevance :=
  let limit := opts.limit.getD 50
  let pq := parseQuery query
  let rows := fetchRows store pq.1 pq.2 opts.set opts.groupId opts.setId (limit * 20)
  let withRel := rows.map (fun i =>
    { toIcon := i, relevance := calculateRelevance i pq.1 })
  (List.insertionSort iconLE withRel).take limit

/-- JS `a || b` on a nullable string: `null`/`undefined` and the empty
string are falsy. -/
def jsOrStr (a : Option Str) (b : Str) : Str :=
  match a with
  | none => b
  | some s => if s.isEmpty then b else s

/-- JS `a || b` on a nullable number: `null`/`undefined` and `0` are
falsy. -/
def jsOrNat (a : Option Nat) (b : Nat) : Nat :=
  match a with
  | none => b
  | some n => if n = 0 then b else n

/-- JS strict equality `s === o` of a string against a nullable string:
false whenever the right side is `null`/`undefined`. -/
def jsStrEqOpt (s : Str) (o : Option Str) : Bool :=
  match o with
  | none => false
  | some t => s == t

/-- Decimal rendering of a numeric id, for the template literals. -/
def natToStr (n : Nat) : Str := (Nat.repr n).toList

/-- `NUCLEO_ICONS_PATH`; the `homedir()` prefix is environment-supplied and
modelled as part of this constant. -/
def iconsRoot : Str := ("Library/Application Support/Nucleo/icons/sets").toList

/-- Path separator used by `join`. -/
def sepChar : Char := Char.ofNat 47

/-- `getIconPath(icon)`: `join(NUCLEO_ICONS_PATH, String(set_id), id + suffix)`. -/
def getIconPath (i : Icon) : Str :=
  iconsRoot ++ [sepChar] ++ natToStr i.set_id ++ [sepChar] ++ natToStr i.id ++
    (".svg").toList

/-- One style descriptor inside a cluster. -/
structure StyleDescriptor where
  group_title : Str
  set_title : Str
  id : Nat
  set_id : Nat
  path : Str
deriving DecidableEq

/-- TS `ClusteredIcon`. -/
structure ClusteredIcon where
  name : Str
  tags : Str
  styles : List StyleDescriptor
  relevance : Nat
deriving DecidableEq

/-- `icon.group_title || icon.set_title || 'Set ' + icon.set_id`. -/
def effectiveGroupLabel (i : Icon) : Str :=
  jsOrStr i.group_title (jsOrStr i.set_title (("Set ").toList ++ natToStr i.set_id))

/-- `icon.set_title || 'Set ' + icon.set_id` as stored in a style
descriptor. -/
def synthSetTitle (i : Icon) : Str :=
  jsOrStr i.set_title (("Set ").toList ++ natToStr i.set_id)

/-- The style descriptor pushed for one entry. -/
def mkStyle (e : IconWithRelevance) : StyleDescriptor :=
  { group_title := effectiveGroupLabel e.toIcon
    set_title := synthSetTitle e.toIcon
    id := e.id
    set_id := e.set_id
    path := getIconPath e.toIcon }

/-- `const tags = icon.tags || icon.nucleo_tags || ''` of the first-seen
entry. -/
def clusterTags (e : IconWithRelevance) : Str :=
  jsOrStr e.tags (jsOrStr e.nucleo_tags [])

/-- Merging one further entry into an existing cluster: push the style
unless one with the same `group_title` and (strict-equality against the raw
nullable `icon.set_title`) `set_title` is present; keep the highest
relevance. -/
def addToCluster (c : ClusteredIcon) (e : IconWithRelevance) : ClusteredIcon :=
  let gt := effectiveGroupLabel e.toIcon
  let hasStyle := c.styles.any (fun s =>
    s.group_title == gt && jsStrEqOpt s.set_title e.set_title)
  { c with
    styles := if hasStyle then c.styles else c.styles ++ [mkStyle e]
    relevance := if c.relevance < e.relevance then e.relevance else c.relevance }

/-- The cluster created at the first occurrence of a name. -/
def newCluster (e : IconWithRelevance) : ClusteredIcon :=
  { name := e.name
    tags := clusterTags e
    styles := [mkStyle e]
    relevance := e.relevance }

/-- One iteration of the clustering loop: update the cluster with this name
if it exists (JS `Map.get`), else append a new one (JS `Map.set`, insertion
order preserved). -/
def insertIcon (cs : List ClusteredIcon) (e : IconWithRelevance) :
    List ClusteredIcon :=
  if cs.any (fun c => c.name == e.name) then
    cs.map (fun c => if c.name == e.name then addToCluster c e else c)
  else cs ++ [newCluster e]

/-- The full clustering pass over the ranked pool. -/
def buildClusters (pool : List IconWithRelevance) : List ClusteredIcon :=
  pool.foldl insertIcon []

/-- Comparator of the sort in `searchIconsClustered`. -/
abbrev clusterLE (a b : ClusteredIcon) : Prop :=
  rankLE a.relevance b.relevance a.name b.name

/-- The options passed to the inner `searchIcons` call:
`{ ...options, limit: (options.limit || 50) * 5 }`. -/
def clusterInnerOpts (opts : SearchOptions) : SearchOptions :=
  { opts with limit := some (jsOrNat opts.limit 50 * 5) }

/-- `searchIconsClustered(query, options)`: search with the inflated limit,
cluster by name, sort clusters, truncate to `options.limit || 50`. -/
def searchIconsClustered (store : List Icon) (query : Str)
    (opts : SearchOptions) : List ClusteredIcon :=
  let results := searchIcons store query (clusterInnerOpts opts)
  let clustered := buildClusters results
  (List.insertionSort clusterLE clustered).take (jsOrNat opts.limit 50)

/-- An entry with its absent descriptive and join fields replaced by empty
strings: used to state that missing fields act as empty strings at the
comparison boundary. -/
def nullsToEmpty (i : Icon) : Icon :=
  { i with
    tags := some (i.tags.getD [])
    nucleo_tags := some (i.nucleo_tags.getD [])
    set_title := some (i.set_title.getD [])
    group_title := some (i.group_title.getD []) }

/-- The fold of `maxRel`. -/
def maxRelStep (m : Nat) (x : IconWithRelevance) : Nat := Nat.max m x.relevance

/-- Maximum relevance in a pool (0 for an empty pool). -/
def maxRel (l : List IconWithRelevance) : Nat := l.foldl maxRelStep 0

/-- The name predicate used to collect a cluster's constituent entries. -/
def nameMatches (n : Str) (x : IconWithRelevance) : Bool := x.name == n

/-- The display identity of a style descriptor: the pair the clustering
dedup is meant to keep unique. -/
def stylePair (s : StyleDescriptor) : Str × Str := (s.group_title, s.set_title)

/-- Concrete entry used by witnesses: name `a`, no tags, no joined rows. -/
def w1Icon : Icon :=
  { id := 1, name := ['a'], tags := none, nucleo_tags := none, set_id := 7,
    favourite := false, width := 16, height := 16, set_title := none,
    group_title := none, group_id := none }

/-- Concrete entry used by witnesses: name `ab`. -/
def w2Icon : Icon :=
  { id := 2, name := ['a', 'b'], tags := none, nucleo_tags := none, set_id := 7,
    favourite := false, width := 16, height := 16, set_title := none,
    group_title := none, group_id := none }

/-- Concrete query `a -z` used by witnesses. -/
def w2Query : Str := ['a', ' ', '-', 'z']

/-- The scored row `searchIcons [w2Icon] w2Query noOpts` returns. -/
def w2Entry : IconWithRelevance := { toIcon := w2Icon, relevance := 50 }

/-- Concrete entry with a present, non-empty set title. -/
def w3Icon : Icon :=
  { id := 20, name := ['a'], tags := none, nucleo_tags := none, set_id := 3,
    favourite := false, width := 1, height := 1, set_title := some ['A'],
    group_title := none, group_id := none }

/-- The cluster `searchIconsClustered [w3Icon] [] noOpts` returns. -/
def w3Cluster : ClusteredIcon :=
  { name := ['a'], tags := [],
    styles := [{ group_title := ['A'], set_title := ['A'], id := 20,
                 set_id := 3, path := getIconPath w3Icon }],
    relevance := 0 }

/-- Two entries sharing a name, both with `NULL` set and group joins: the
counterexample input for the clustering dedup. -/
def cx1 : Icon :=
  { id := 10, name := ['a'], tags := none, nucleo_tags := none, set_id := 7,
    favourite := false, width := 1, height := 1, set_title := none,
    group_title := none, group_id := none }

def cx2 : Icon := { cx1 with id := 11 }

/-! ### Ordering facts for the sort comparator -/

theorem strLE_total : ∀ (a b : Str), strLE a b = true ∨ strLE b a = true := by
  intro a
  induction a with
  | nil => intro b; left; rfl
  | cons x xs ih =>
    intro b
    cases b with
    | nil => right; rfl
    | cons y ys =>
      rcases Nat.lt_trichotomy x.toNat y.toNat with h | h | h
      · left; simp [strLE, h]
      · rcases ih ys with hs | hs
        · left; simp [strLE, h, Nat.lt_irrefl, hs]
        · right; simp [strLE, h.symm, Nat.lt_irrefl, hs]
      · right; simp [strLE, h]

theorem strLE_trans : ∀ (a b c : Str),
    strLE a b = true → strLE b c = true → strLE a c = true := by
  intro a
  induction a with
  | nil => intro b c _ _; rfl
  | cons x xs ih =>
    intro b c hab hbc
    cases b with
    | nil => simp [strLE] at hab
    | cons y ys =>
      cases c with
      | nil => simp [strLE] at hbc
      | cons z zs =>
        simp only [strLE] at hab hbc ⊢
        rcases Nat.lt_trichotomy x.toNat y.toNat with h1 | h1 | h1 <;>
          rcases Nat.lt_trichotomy y.toNat z.toNat with h2 | h2 | h2 <;>
          simp_all [Nat.lt_irrefl] <;> first | omega | exact ih ys zs hab hbc

theorem rankLE_total (ra rb : Nat) (na nb : Str) :
    rankLE ra rb na nb ∨ rankLE rb ra nb na := by
  rcases Nat.lt_trichotomy ra rb with h | h | h
  · right; exact Or.inl h
  · rcases strLE_total na nb with hs | hs
    · left; exact Or.inr ⟨h, hs⟩
    · right; exact Or.inr ⟨h.symm, hs⟩
  · left; exact Or.inl h

theorem rankLE_trans {ra rb rc : Nat} {na nb nc : Str}
    (h1 : rankLE ra rb na nb) (h2 : rankLE rb rc nb nc) : rankLE ra rc na nc := by
  rcases h1 with h1 | ⟨e1, s1⟩
  · rcases h2 with h2 | ⟨e2, s2⟩
    · exact Or.inl (Nat.lt_trans h2 h1)
    · exact Or.inl (e2 ▸ h1)
  · rcases h2 with h2 | ⟨e2, s2⟩
    · exact Or.inl (e1 ▸ h2)
    · exact Or.inr ⟨e1.trans e2, strLE_trans _ _ _ s1 s2⟩

/-! ### The relevance loop in closed form -/

theorem foldl_relStep (icon : Icon) (ts : List Str) : ∀ (a b : Nat),
    ts.foldl (relStep icon) (a, b) =
      (a + (ts.map (termScore icon)).sum,
       b + (ts.filter (fun t => decide (0 < termScore icon t))).length) := by
  induction ts with
  | nil => intro a b; simp
  | cons t ts ih =>
    intro a b
    rcases Nat.eq_zero_or_pos (termScore icon t) with h | h
    · have hstep : relStep icon (a, b) t = (a, b) := by simp [relStep, h]
      rw [List.foldl_cons, hstep, ih]
      simp [h]
    · have hstep : relStep icon (a, b) t = (a + termScore icon t, b + 1) := by
        simp [relStep, h]
      have hd : decide (0 < termScore icon t) = true := by simpa using h
      rw [List.foldl_cons, hstep, ih]
      simp [hd, Prod.ext_iff]
      omega

/-- C2: for every icon entry and inclusion-term list, the aggregate
relevance equals the sum of the per-term scores, multiplied by the number
of terms that matched (per-term score positive) exactly when more than one
term was supplied and at least one matched; with zero or one inclusion
terms no multiplication is applied (a single supplied term that matches
would multiply by 1, which is the identity). -/
theorem claim_C2_aggregate (icon : Icon) (terms : List Str) :
    calculateRelevance icon terms =
      if 1 < terms.length ∧
          0 < (terms.filter (fun t => decide (0 < termScore icon t))).length then
        (terms.map (termScore icon)).sum *
          (terms.filter (fun t => decide (0 < termScore icon t))).length
      else (terms.map (termScore icon)).sum := by
  unfold calculateRelevance
  rw [foldl_relStep]
  simp

/-- C1: for every icon entry and every term, the per-term score is decided
by the first matching rule, in this order, over the lower-cased term and
lower-cased entry fields (missing fields read as empty): 100 when the name
equals the term; else 50 when the name starts with the term or with
term + "-"; else 30 when the name contains the term; else 10 when the
curated or auxiliary tags contain it; else 5 when the set title or group
title contain it; else 0.  No rule is double-counted: each branch fires
only with every earlier rule's condition refuted. -/
theorem claim_C1_term_priority (icon : Icon) (term : Str) :
    (jsToLower icon.name = term → termScore icon term = 100) ∧
    (jsToLower icon.name ≠ term →
      (strStartsWith (jsToLower icon.name) term = true ∨
        strStartsWith (jsToLower icon.name) (term ++ ['-']) = true) →
      termScore icon term = 50) ∧
    (jsToLower icon.name ≠ term →
      strStartsWith (jsToLower icon.name) term = false →
      strStartsWith (jsToLower icon.name) (term ++ ['-']) = false →
      strContains (jsToLower icon.name) term = true →
      termScore icon term = 30) ∧
    (jsToLower icon.name ≠ term →
      strStartsWith (jsToLower icon.name) term = false →
      strStartsWith (jsToLower icon.name) (term ++ ['-']) = false →
      strContains (jsToLower icon.name) term = false →
      (strContains (jsToLower (icon.tags.getD [])) term = true ∨
        strContains (jsToLower (icon.nucleo_tags.getD [])) term = true) →
      termScore icon term = 10) ∧
    (jsToLower icon.name ≠ term →
      strStartsWith (jsToLower icon.name) term = false →
      strStartsWith (jsToLower icon.name) (term ++ ['-']) = false →
      strContains (jsToLower icon.name) term = false →
      strContains (jsToLower (icon.tags.getD [])) term = false →
      strContains (jsToLower (icon.nucleo_tags.getD [])) term = false →
      (strContains (jsToLower (icon.set_title.getD [])) term = true ∨
        strContains (jsToLower (icon.group_title.getD [])) term = true) →
      termScore icon term = 5) ∧
    (jsToLower icon.name ≠ term →
      strStartsWith (jsToLower icon.name) term = false →
      strStartsWith (jsToLower icon.name) (term ++ ['-']) = false →
      strContains (jsToLower icon.name) term = false →
      strContains (jsToLower (icon.tags.getD [])) term = false →
      strContains (jsToLower (icon.nucleo_tags.getD [])) term = false →
      strContains (jsToLower (icon.set_title.getD [])) term = false →
      strContains (jsToLower (icon.group_title.getD [])) term = false →
      termScore icon term = 0) := by
  refine ⟨?_, ?_, ?_, ?_, ?_, ?_⟩
  · intro h1
    simp [termScore, h1]
  · intro h1 h2
    rcases h2 with h2 | h2 <;> simp [termScore, h1, h2]
  · intro h1 h2 h3 h4
    simp [termScore, h1, h2, h3, h4]
  · intro h1 h2 h3 h4 h5
    rcases h5 with h5 | h5 <;> simp [termScore, h1, h2, h3, h4, h5]
  · intro h1 h2 h3 h4 h5 h6 h7
    rcases h7 with h7 | h7 <;> simp [termScore, h1, h2, h3, h4, h5, h6, h7]
  · intro h1 h2 h3 h4 h5 h6 h7 h8
    simp [termScore, h1, h2, h3, h4, h5, h6, h7, h8]

/-- Witness for C1 at a concrete exact-name match. -/
theorem claim_C1_witness : termScore w1Icon ['a'] = 100 :=
  (claim_C1_term_priority w1Icon ['a']).1 (by decide)

/-! ### The parser in closed form -/

theorem splitTerms_eq (ts : List Str) :
    splitTerms ts =
      (ts.filter (fun t => !(strStartsWith t ['-'] && decide (1 < t.length))),
       (ts.filter (fun t => strStartsWith t ['-'] && decide (1 < t.length))).map
         (fun t => t.drop 1)) := by
  induction ts with
  | nil => rfl
  | cons t ts ih =>
    simp only [splitTerms]
    rw [ih]
    by_cases h : (strStartsWith t ['-'] && decide (1 < t.length)) = true
    · rw [if_pos h]
      simp only [List.filter_cons]
      rw [h]
      simp
    · rw [if_neg h]
      rw [Bool.not_eq_true] at h
      simp only [List.filter_cons]
      rw [h]
      simp

/-- C7: the parser lower-cases the raw query, tokenizes it on whitespace
dropping empty tokens, and classifies the tokens in order: a token starting
with "-" and longer than one character becomes an exclusion term with the
prefix stripped, every other token (including a bare "-") becomes an
inclusion term; the empty query yields two empty lists, and parsing is a
total function. -/
theorem claim_C7_parse_terms (q : Str) :
    parseQuery q =
      ((tokenizeQuery q).filter
          (fun t => !(strStartsWith t ['-'] && decide (1 < t.length))),
        ((tokenizeQuery q).filter
            (fun t => strStartsWith t ['-'] && decide (1 < t.length))).map
          (fun t => t.drop 1)) ∧
    parseQuery [] = ([], []) ∧
    parseQuery ['-'] = ([['-']], []) :=
  ⟨splitTerms_eq (tokenizeQuery q), by decide, by decide⟩

/-- C9: parsing and scoring are total, the relevance of any entry is a
non-negative integer, and absent (NULL) tags, auxiliary tags, set title
and group title behave exactly as empty strings at the comparison
boundary, so an entry with all joins absent scores without error. -/
theorem claim_C9_totality (q : Str) (icon : Icon) (terms : List Str) :
    (∃ pos neg, parseQuery q = (pos, neg)) ∧
    calculateRelevance (nullsToEmpty icon) terms = calculateRelevance icon terms ∧
    0 ≤ calculateRelevance icon terms := by
  refine ⟨⟨(parseQuery q).1, (parseQuery q).2, rfl⟩, ?_, Nat.zero_le _⟩
  have hstep : relStep (nullsToEmpty icon) = relStep icon := by
    funext p t
    have hts : termScore (nullsToEmpty icon) t = termScore icon t := by
      simp [termScore, nullsToEmpty]
    simp [relStep, hts]
  unfold calculateRelevance
  rw [hstep]

/-- C10: a falsy structural filter is silently dropped: an empty set-name
string, a zero group id, or a zero set id gives the same search result as
omitting that filter, rather than constraining the result. -/
theorem claim_C10_falsy_filters (store : List Icon) (q : Str)
    (set? : Option Str) (g? s? lim? : Option Nat) :
    (searchIcons store q
        { set := some [], groupId := g?, setId := s?, limit := lim? } =
      searchIcons store q
        { set := none, groupId := g?, setId := s?, limit := lim? }) ∧
    (searchIcons store q
        { set := set?, groupId := some 0, setId := s?, limit := lim? } =
      searchIcons store q
        { set := set?, groupId := none, setId := s?, limit := lim? }) ∧
    (searchIcons store q
        { set := set?, groupId := g?, setId := some 0, limit := lim? } =
      searchIcons store q
        { set := set?, groupId := g?, setId := none, limit := lim? }) := by
  have hset : ∀ (pos neg : List Str) (g s : Option Nat),
      rowFilter pos neg (some []) g s = rowFilter pos neg none g s := by
    intro pos neg g s
    funext i
    simp [rowFilter, setClause]
  have hg : ∀ (pos neg : List Str) (st : Option Str) (s : Option Nat),
      rowFilter pos neg st (some 0) s = rowFilter pos neg st none s := by
    intro pos neg st s
    funext i
    simp [rowFilter, groupIdClause]
  have hs : ∀ (pos neg : List Str) (st : Option Str) (g : Option Nat),
      rowFilter pos neg st g (some 0) = rowFilter pos neg st g none := by
    intro pos neg st g
    funext i
    simp [rowFilter, setIdClause]
  refine ⟨?_, ?_, ?_⟩ <;> simp [searchIcons, fetchRows, hset, hg, hs]

/-! ### Membership through the search pipeline -/

theorem mem_of_sortTake {α : Type} {r : α → α → Prop} [DecidableRel r]
    {l : List α} {n : Nat} {x : α}
    (hx : x ∈ (List.insertionSort r l).take n) : x ∈ l :=
  (List.perm_insertionSort r l).subset ((List.take_sublist n _).subset hx)

theorem mem_searchIcons {store : List Icon} {q : Str} {opts : SearchOptions}
    {e : IconWithRelevance} (he : e ∈ searchIcons store q opts) :
    e.toIcon ∈ store ∧
    rowFilter (parseQuery q).1 (parseQuery q).2 opts.set opts.groupId
      opts.setId e.toIcon = true ∧
    e.relevance = calculateRelevance e.toIcon (parseQuery q).1 := by
  simp only [searchIcons] at he
  have h1 := mem_of_sortTake he
  simp only [List.mem_map] at h1
  obtain ⟨i, hi, hie⟩ := h1
  subst hie
  simp only [fetchRows] at hi
  have h2 := (List.take_sublist _ _).subset hi
  rw [List.mem_filter] at h2
  exact ⟨h2.1, h2.2, rfl⟩

/-- C3: with a non-empty inclusion list, every candidate fetched for
scoring satisfies at least one inclusion term's five-field OR clause; with
an empty inclusion list no inclusion filtering is applied and the fetch
keeps exactly the rows passing the exclusion and structural filters. -/
theorem claim_C3_candidates (store : List Icon) (pos neg : List Str)
    (set? : Option Str) (g? s? : Option Nat) (cap : Nat) :
    (∀ i ∈ fetchRows store pos neg set? g? s? cap, pos ≠ [] →
      ∃ t ∈ pos, posTermClause i t = true) ∧
    fetchRows store [] neg set? g? s? cap =
      (store.filter (fun i => neg.all (negTermClause i) && setClause set? i &&
        groupIdClause g? i && setIdClause s? i)).take cap := by
  constructor
  · intro i hi hpos
    simp only [fetchRows] at hi
    have h := (List.take_sublist _ _).subset hi
    rw [List.mem_filter] at h
    have h2 := h.2
    unfold rowFilter at h2
    simp only [Bool.and_eq_true, Bool.or_eq_true, List.isEmpty_iff,
      List.any_eq_true] at h2
    rcases h2.1.1.1.1 with hemp | hany
    · exact absurd hemp hpos
    · exact hany
  · rfl

/-- Witness for C3 at a concrete store and one-term inclusion list. -/
theorem claim_C3_witness : ∃ t ∈ [(['a'] : Str)], posTermClause w1Icon t = true :=
  (claim_C3_candidates [w1Icon] [['a']] [] none none none 10).1 w1Icon
    (by decide) (by decide)

/-- C6: for every entry of a search result and every exclusion term of the
query, none of name, curated tags, auxiliary tags, set title or group title
contains the term as a case-insensitive substring (an absent field trivially
matches nothing); in particular an entry whose tags contain an excluded
term is excluded even when its name matches an inclusion term. -/
theorem claim_C6_exclusion (store : List Icon) (q : Str) (opts : SearchOptions)
    (e : IconWithRelevance) (he : e ∈ searchIcons store q opts) :
    ∀ t ∈ (parseQuery q).2,
      sqlLike (some e.toIcon.name) t = false ∧
      sqlLike e.toIcon.tags t = false ∧
      sqlLike e.toIcon.nucleo_tags t = false ∧
      sqlLike e.toIcon.set_title t = false ∧
      sqlLike e.toIcon.group_title t = false := by
  intro t ht
  have h := (mem_searchIcons he).2.1
  unfold rowFilter at h
  simp only [Bool.and_eq_true, List.all_eq_true] at h
  have hneg := h.1.1.1.2 t ht
  unfold negTermClause at hneg
  simp only [Bool.and_eq_true, Bool.not_eq_true'] at hneg
  exact ⟨hneg.1.1.1.1, hneg.1.1.1.2, hneg.1.1.2, hneg.1.2, hneg.2⟩

/-- Witness for C6: the query `a -z` with a matching store entry. -/
theorem claim_C6_witness :
    sqlLike (some w2Icon.name) ['z'] = false ∧
    sqlLike w2Icon.tags ['z'] = false ∧
    sqlLike w2Icon.nucleo_tags ['z'] = false ∧
    sqlLike w2Icon.set_title ['z'] = false ∧
    sqlLike w2Icon.group_title ['z'] = false :=
  claim_C6_exclusion [w2Icon] w2Query noOpts w2Entry (by decide) ['z'] (by decide)

/-- C5 as stated is false: the clustered search truncates to
`options.limit || 50`, not to the caller-specified limit, so a caller
passing `limit = 0` receives a non-empty result. -/
theorem claim_C5_counterexample :
    ¬ (searchIconsClustered [w1Icon] []
        { set := none, groupId := none, setId := none, limit := some 0 }).length ≤ 0 := by
  decide

/-- C5 (amended): both searches return lists sorted by descending relevance
with ties broken by ascending code-point name order (never by fetch
order), truncated to the effective limit: the flat search truncates to the
caller's limit (defaulting to 50 only when the option is absent), while
the clustered search replaces an absent or zero limit by 50. -/
theorem claim_C5_order_amended (store : List Icon) (q : Str)
    (opts : SearchOptions) :
    List.Sorted iconLE (searchIcons store q opts) ∧
    (searchIcons store q opts).length ≤ opts.limit.getD 50 ∧
    List.Sorted clusterLE (searchIconsClustered store q opts) ∧
    (searchIconsClustered store q opts).length ≤ jsOrNat opts.limit 50 := by
  haveI hti : IsTotal IconWithRelevance iconLE :=
    ⟨fun a b => rankLE_total a.relevance b.relevance a.name b.name⟩
  haveI hri : IsTrans IconWithRelevance iconLE :=
    ⟨fun _ _ _ h1 h2 => rankLE_trans h1 h2⟩
  haveI htc : IsTotal ClusteredIcon clusterLE :=
    ⟨fun a b => rankLE_total a.relevance b.relevance a.name b.name⟩
  haveI hrc : IsTrans ClusteredIcon clusterLE :=
    ⟨fun _ _ _ h1 h2 => rankLE_trans h1 h2⟩
  refine ⟨?_, ?_, ?_, ?_⟩
  · simp only [searchIcons]
    exact List.Pairwise.sublist (List.take_sublist _ _)
      (List.sorted_insertionSort iconLE _)
  · simp only [searchIcons]
    exact List.length_take_le _ _
  · simp only [searchIconsClustered]
    exact List.Pairwise.sublist (List.take_sublist _ _)
      (List.sorted_insertionSort clusterLE _)
  · simp only [searchIconsClustered]
    exact List.length_take_le _ _

/-! ### Clustering: dedup of style descriptors -/

theorem addToCluster_name (c : ClusteredIcon) (e : IconWithRelevance) :
    (addToCluster c e).name = c.name := rfl

theorem addToCluster_tags (c : ClusteredIcon) (e : IconWithRelevance) :
    (addToCluster c e).tags = c.tags := rfl

theorem addToCluster_relevance (c : ClusteredIcon) (e : IconWithRelevance) :
    (addToCluster c e).relevance = Nat.max c.relevance e.relevance := by
  unfold addToCluster
  by_cases h : c.relevance < e.relevance
  · simp [h, Nat.max_eq_right (Nat.le_of_lt h)]
  · simp [h, Nat.max_eq_left (Nat.le_of_not_lt h)]

theorem addToCluster_styles (c : ClusteredIcon) (e : IconWithRelevance) :
    (addToCluster c e).styles =
      if c.styles.any (fun s =>
          s.group_title == effectiveGroupLabel e.toIcon &&
          jsStrEqOpt s.set_title e.toIcon.set_title) then c.styles
      else c.styles ++ [mkStyle e] := rfl

theorem nodup_concat {β : Type} (l : List β) (a : β) (h1 : l.Nodup)
    (h2 : a ∉ l) : (l ++ [a]).Nodup := by
  induction l with
  | nil => simp
  | cons x xs ih =>
    rcases List.nodup_cons.mp h1 with ⟨hx, hxs⟩
    have hrec := ih hxs (fun hmem => h2 (List.mem_cons_of_mem _ hmem))
    refine List.nodup_cons.mpr ⟨?_, hrec⟩
    intro hmem
    rcases List.mem_append.mp hmem with hl | hr
    · exact hx hl
    · have hxa := List.mem_singleton.mp hr
      exact h2 (by rw [← hxa]; exact List.mem_cons_self x xs)

theorem insertIcon_nodup (acc : List ClusteredIcon) (e : IconWithRelevance)
    (hset : ∃ t, e.toIcon.set_title = some t ∧ t ≠ [])
    (hacc : ∀ c ∈ acc, (c.styles.map stylePair).Nodup) :
    ∀ c ∈ insertIcon acc e, (c.styles.map stylePair).Nodup := by
  intro c hc
  unfold insertIcon at hc
  obtain ⟨t, ht, htne⟩ := hset
  by_cases hany : (acc.any (fun c => c.name == e.name)) = true
  · rw [if_pos hany] at hc
    rcases List.mem_map.mp hc with ⟨c0, hc0, hceq⟩
    by_cases hname : (c0.name == e.name) = true
    · rw [if_pos hname] at hceq
      subst hceq
      rw [addToCluster_styles]
      by_cases hstyle : (c0.styles.any (fun s =>
          s.group_title == effectiveGroupLabel e.toIcon &&
          jsStrEqOpt s.set_title e.toIcon.set_title)) = true
      · rw [if_pos hstyle]
        exact hacc c0 hc0
      · rw [if_neg hstyle, List.map_append]
        apply nodup_concat
        · exact hacc c0 hc0
        · intro hmem
          rcases List.mem_map.mp hmem with ⟨s, hs, hpair⟩
          apply hstyle
          rw [List.any_eq_true]
          refine ⟨s, hs, ?_⟩
          have hsynth : synthSetTitle e.toIcon = t := by
            unfold synthSetTitle jsOrStr
            rw [ht]
            simp [List.isEmpty_iff, htne]
          have h1 : s.group_title = effectiveGroupLabel e.toIcon :=
            congrArg Prod.fst hpair
          have h2 : s.set_title = synthSetTitle e.toIcon :=
            congrArg Prod.snd hpair
          rw [Bool.and_eq_true]
          constructor
          · simp [h1]
          · unfold jsStrEqOpt
            rw [ht]
            simp [h2, hsynth]
    · rw [if_neg hname] at hceq
      subst hceq
      exact hacc c0 hc0
  · rw [if_neg hany] at hc
    rcases List.mem_append.mp hc with hl | hr
    · exact hacc c hl
    · have hc' := List.mem_singleton.mp hr
      subst hc'
      simp [newCluster]

theorem insertIcon_nodup_fold (rest : List IconWithRelevance) :
    ∀ (acc : List ClusteredIcon),
      (∀ e ∈ rest, ∃ t, e.toIcon.set_title = some t ∧ t ≠ []) →
      (∀ c ∈ acc, (c.styles.map stylePair).Nodup) →
      ∀ c ∈ rest.foldl insertIcon acc, (c.styles.map stylePair).Nodup := by
  induction rest with
  | nil => intro acc _ hacc c hc; exact hacc c hc
  | cons e rest ih =>
    intro acc hrest hacc c hc
    rw [List.foldl_cons] at hc
    exact ih (insertIcon acc e)
      (fun x hx => hrest x (List.mem_cons_of_mem _ hx))
      (insertIcon_nodup acc e (hrest e (List.mem_cons_self _ _)) hacc) c hc

/-- C4 as stated is false: the dedup check compares the stored (possibly
synthesized) set title to the raw nullable `icon.set_title` with strict
equality, which never succeeds when the set join is absent, so two entries
sharing a name with `NULL` set and group joins yield two style descriptors
with the identical `(group_label, set_title)` pair. -/
theorem claim_C4_counterexample :
    ¬ ∀ c ∈ searchIconsClustered [cx1, cx2] [] noOpts,
        (c.styles.map stylePair).Nodup := by
  decide

/-- C4 (amended): over a store in which every entry has a present,
non-empty set title, no cluster returned by the clustered search carries
two style descriptors with the same `(group_label, set_title)` pair; an
entry whose set title is absent bypasses the dedup comparison (stored
synthesized title against raw absent title) and can append a duplicate
descriptor. -/
theorem claim_C4_dedup_amended (store : List Icon) (q : Str)
    (opts : SearchOptions)
    (hstore : ∀ i ∈ store, ∃ t, i.set_title = some t ∧ t ≠ []) :
    ∀ c ∈ searchIconsClustered store q opts,
      (c.styles.map stylePair).Nodup := by
  intro c hc
  simp only [searchIconsClustered, buildClusters] at hc
  have hc2 := mem_of_sortTake hc
  refine insertIcon_nodup_fold _ [] ?_ (by simp) c hc2
  intro e he
  exact hstore e.toIcon (mem_searchIcons he).1

/-- Witness for C4 (amended) at a concrete one-entry store. -/
theorem claim_C4_witness : (w3Cluster.styles.map stylePair).Nodup :=
  claim_C4_dedup_amended [w3Icon] [] noOpts
    (by
      intro i hi
      have hi' := List.mem_singleton.mp hi
      subst hi'
      exact ⟨['A'], rfl, by decide⟩)
    w3Cluster (by decide)

/-! ### Clustering: max relevance and first-seen tags -/

theorem maxRel_append (l : List IconWithRelevance) (e : IconWithRelevance) :
    maxRel (l ++ [e]) = Nat.max (maxRel l) e.relevance := by
  unfold maxRel
  rw [List.foldl_append]
  rfl

theorem find?_append_of_isSome {α : Type} (l1 l2 : List α) (p : α → Bool)
    (h : (l1.find? p).isSome = true) : (l1 ++ l2).find? p = l1.find? p := by
  rw [List.find?_append]
  obtain ⟨a, ha⟩ := Option.isSome_iff_exists.mp h
  rw [ha]
  rfl

theorem filter_append_singleton_pos {α : Type} (l : List α) (a : α)
    (p : α → Bool) (h : p a = true) :
    (l ++ [a]).filter p = l.filter p ++ [a] := by
  rw [List.filter_append]
  simp [h]

theorem filter_append_singleton_neg {α : Type} (l : List α) (a : α)
    (p : α → Bool) (h : p a = false) :
    (l ++ [a]).filter p = l.filter p := by
  rw [List.filter_append]
  simp [h]

theorem find?_append_singleton_neg {α : Type} (l : List α) (a : α)
    (p : α → Bool) (h : p a = false) :
    (l ++ [a]).find? p = l.find? p := by
  rw [List.find?_append]
  have : [a].find? p = none := by simp [List.find?_cons, h]
  rw [this]
  cases l.find? p <;> rfl

theorem insertIcon_spec_fold (rest : List IconWithRelevance) :
    ∀ (processed : List IconWithRelevance) (acc : List ClusteredIcon),
      (∀ e ∈ processed, ∃ c ∈ acc, c.name = e.name) →
      (∀ c ∈ acc,
        (∃ e ∈ processed, e.name = c.name) ∧
        (∀ e, processed.find? (nameMatches c.name) = some e →
          c.tags = clusterTags e) ∧
        c.relevance = maxRel (processed.filter (nameMatches c.name))) →
      ∀ c ∈ rest.foldl insertIcon acc,
        (∃ e ∈ (processed ++ rest), e.name = c.name) ∧
        (∀ e, (processed ++ rest).find? (nameMatches c.name) = some e →
          c.tags = clusterTags e) ∧
        c.relevance = maxRel ((processed ++ rest).filter (nameMatches c.name)) := by
  induction rest with
  | nil =>
    intro processed acc h1 h2 c hc
    simpa using h2 c hc
  | cons e rest ih =>
    intro processed acc h1 h2 c hc
    rw [List.foldl_cons] at hc
    have hOblA : ∀ e' ∈ processed ++ [e],
        ∃ c' ∈ insertIcon acc e, c'.name = e'.name := by
      intro e' he'
      unfold insertIcon
      rcases List.mem_append.mp he' with hp | hs
      · obtain ⟨c0, hc0, hcname⟩ := h1 e' hp
        by_cases hany : (acc.any (fun c => c.name == e.name)) = true
        · rw [if_pos hany]
          refine ⟨if (c0.name == e.name) = true then addToCluster c0 e else c0,
            List.mem_map_of_mem _ hc0, ?_⟩
          by_cases hn : (c0.name == e.name) = true
          · rw [if_pos hn, addToCluster_name]
            exact hcname
          · rw [if_neg hn]
            exact hcname
        · rw [if_neg hany]
          exact ⟨c0, List.mem_append_left _ hc0, hcname⟩
      · have he'' := List.mem_singleton.mp hs
        by_cases hany : (acc.any (fun c => c.name == e.name)) = true
        · rw [if_pos hany]
          rw [List.any_eq_true] at hany
          obtain ⟨c0, hc0, hn⟩ := hany
          refine ⟨addToCluster c0 e, ?_, ?_⟩
          · have heq : (if (c0.name == e.name) = true then addToCluster c0 e
                else c0) = addToCluster c0 e := if_pos hn
            rw [← heq]
            exact List.mem_map_of_mem _ hc0
          · rw [addToCluster_name, he'']
            exact eq_of_beq hn
        · rw [if_neg hany]
          refine ⟨newCluster e, List.mem_append_right _ (List.mem_singleton.mpr rfl),
            ?_⟩
          rw [he'']
          rfl
    have hOblB : ∀ c' ∈ insertIcon acc e,
        (∃ e0 ∈ processed ++ [e], e0.name = c'.name) ∧
        (∀ e0, (processed ++ [e]).find? (nameMatches c'.name) = some e0 →
          c'.tags = clusterTags e0) ∧
        c'.relevance = maxRel ((processed ++ [e]).filter (nameMatches c'.name)) := by
      intro c' hc'
      unfold insertIcon at hc'
      by_cases hany : (acc.any (fun c => c.name == e.name)) = true
      · rw [if_pos hany] at hc'
        rcases List.mem_map.mp hc' with ⟨c0, hc0, hceq⟩
        obtain ⟨hex0, htags0, hrel0⟩ := h2 c0 hc0
        by_cases hn : (c0.name == e.name) = true
        · rw [if_pos hn] at hceq
          subst hceq
          have hname0 : c0.name = e.name := eq_of_beq hn
          simp only [addToCluster_name, addToCluster_tags]
          have hpe : nameMatches c0.name e = true := by
            unfold nameMatches
            exact beq_iff_eq.mpr hname0.symm
          have hsome : (processed.find? (nameMatches c0.name)).isSome = true := by
            rw [List.find?_isSome]
            obtain ⟨e1, he1, hn1⟩ := hex0
            exact ⟨e1, he1, by unfold nameMatches; exact beq_iff_eq.mpr hn1⟩
          refine ⟨?_, ?_, ?_⟩
          · exact ⟨e, List.mem_append_right _ (List.mem_singleton.mpr rfl),
              hname0.symm⟩
          · intro e0 hfind
            rw [find?_append_of_isSome _ _ _ hsome] at hfind
            exact htags0 e0 hfind
          · rw [filter_append_singleton_pos _ _ _ hpe, maxRel_append, ← hrel0,
              addToCluster_relevance]
        · rw [if_neg hn] at hceq
          subst hceq
          have hname0 : c0.name ≠ e.name := by
            intro hcontra
            exact absurd (beq_iff_eq.mpr hcontra) hn
          have hpe : nameMatches c0.name e = false := by
            unfold nameMatches
            exact beq_eq_false_iff_ne.mpr (fun hcontra => hname0 hcontra.symm)
          refine ⟨?_, ?_, ?_⟩
          · obtain ⟨e1, he1, hn1⟩ := hex0
            exact ⟨e1, List.mem_append_left _ he1, hn1⟩
          · intro e0 hfind
            rw [find?_append_singleton_neg _ _ _ hpe] at hfind
            exact htags0 e0 hfind
          · rw [filter_append_singleton_neg _ _ _ hpe]
            exact hrel0
      · rw [if_neg hany] at hc'
        rw [List.any_eq_true] at hany
        rcases List.mem_append.mp hc' with hl | hr
        · obtain ⟨hex0, htags0, hrel0⟩ := h2 c' hl
          have hname0 : c'.name ≠ e.name := by
            intro hcontra
            exact hany ⟨c', hl, beq_iff_eq.mpr hcontra⟩
          have hpe : nameMatches c'.name e = false := by
            unfold nameMatches
            exact beq_eq_false_iff_ne.mpr (fun hcontra => hname0 hcontra.symm)
          refine ⟨?_, ?_, ?_⟩
          · obtain ⟨e1, he1, hn1⟩ := hex0
            exact ⟨e1, List.mem_append_left _ he1, hn1⟩
          · intro e0 hfind
            rw [find?_append_singleton_neg _ _ _ hpe] at hfind
            exact htags0 e0 hfind
          · rw [filter_append_singleton_neg _ _ _ hpe]
            exact hrel0
        · have hc'' := List.mem_singleton.mp hr
          subst hc''
          have hnone : ∀ x ∈ processed, nameMatches (newCluster e).name x = false := by
            intro x hx
            obtain ⟨c0, hc0, hcname⟩ := h1 x hx
            unfold nameMatches
            refine beq_eq_false_iff_ne.mpr ?_
            intro hcontra
            exact hany ⟨c0, hc0, beq_iff_eq.mpr (hcname.trans hcontra)⟩
          have hfnone : processed.find? (nameMatches (newCluster e).name) = none := by
            rw [List.find?_eq_none]
            intro x hx
            simp [hnone x hx]
          have hpe : nameMatches (newCluster e).name e = true := by
            unfold nameMatches newCluster
            exact beq_iff_eq.mpr rfl
          refine ⟨?_, ?_, ?_⟩
          · exact ⟨e, List.mem_append_right _ (List.mem_singleton.mpr rfl), rfl⟩
          · intro e0 hfind
            rw [List.find?_append, hfnone] at hfind
            simp only [Option.none_or] at hfind
            rw [List.find?_cons_of_pos _ hpe] at hfind
            have he0 : e = e0 := by injection hfind
            subst he0
            rfl
          · rw [filter_append_singleton_pos _ _ _ hpe, maxRel_append]
            have hfilnil : processed.filter (nameMatches (newCluster e).name) = [] := by
              rw [List.filter_eq_nil_iff]
              intro x hx
              simp [hnone x hx]
            rw [hfilnil]
            simp [maxRel, maxRelStep, newCluster]
    have key := ih (processed ++ [e]) (insertIcon acc e) hOblA hOblB c hc
    have heq : (processed ++ [e]) ++ rest = processed ++ e :: rest := by simp
    rw [heq] at key
    exact key

/-- C8: every cluster returned by the clustered search takes its relevance
as the maximum relevance among the pooled entries sharing its name, and its
merged tags from the first-seen entry of that name in the ranked pool:
that entry's curated tags when non-empty, else its auxiliary tags, else
the empty string (the `clusterTags` fallback chain). -/
theorem claim_C8_cluster_merge (store : List Icon) (q : Str)
    (opts : SearchOptions) (c : ClusteredIcon)
    (hc : c ∈ searchIconsClustered store q opts) :
    (∃ e, (searchIcons store q (clusterInnerOpts opts)).find?
        (nameMatches c.name) = some e ∧ c.tags = clusterTags e) ∧
    c.relevance =
      maxRel ((searchIcons store q (clusterInnerOpts opts)).filter
        (nameMatches c.name)) := by
  simp only [searchIconsClustered, buildClusters] at hc
  have hc2 := mem_of_sortTake hc
  have key := insertIcon_spec_fold (searchIcons store q (clusterInnerOpts opts))
    [] [] (by simp) (by simp) c hc2
  simp only [List.nil_append] at key
  obtain ⟨⟨e0, he0, hn0⟩, htags, hrel⟩ := key
  have hsome : ((searchIcons store q (clusterInnerOpts opts)).find?
      (nameMatches c.name)).isSome = true := by
    rw [List.find?_isSome]
    exact ⟨e0, he0, by unfold nameMatches; exact beq_iff_eq.mpr hn0⟩
  obtain ⟨e, he⟩ := Option.isSome_iff_exists.mp hsome
  exact ⟨⟨e, he, htags e he⟩, hrel⟩

/-- Witness for C8 at a concrete one-entry store. -/
theorem claim_C8_witness :
    (∃ e, (searchIcons [w3Icon] [] (clusterInnerOpts noOpts)).find?
        (nameMatches w3Cluster.name) = some e ∧
      w3Cluster.tags = clusterTags e) ∧
    w3Cluster.relevance =
      maxRel ((searchIcons [w3Icon] [] (clusterInnerOpts noOpts)).filter
        (nameMatches w3Cluster.name)) :=
  claim_C8_cluster_merge [w3Icon] [] noOpts w3Cluster (by decide)
